import Mathlib

/-!
Verification of the vacuum-world simulation harness
(src/practical_02/vacuum_world.py).

The embedding models Python exceptions as an explicit `PyExc` value
(distinguishing `ValueError` from every other exception class, since the
runner dispatches on exactly that distinction), dictionaries keyed by
location strings as functions `String → Bool`, and the mutable
environment/evaluator objects as explicit state threaded through the
experiment loop.
-/

namespace VacuumWorld

/-- A raised Python exception, as far as the runner can distinguish it:
either a `ValueError` (with its message/payload rendered as a string) or
any other exception class. -/
inductive PyExc where
  | valueError (msg : String)
  | otherError (msg : String)
deriving DecidableEq

/-- The payload of an `ExperimentError`: the component held at fault
("agent" or "environment") and the underlying cause. -/
structure Fault where
  component : String
  cause : PyExc
deriving DecidableEq

def DIRTY_VALUES : List String := ["y", "yes", "t", "true", "dirty"]
def CLEAN_VALUES : List String := ["n", "no", "f", "false", "clean"]

/-- The Python `str.lower()` call on the dirt-status tokens, modelled as
a character-wise lowering of the string. -/
def lower (s : String) : String :=
  ⟨s.data.map Char.toLower⟩

/-- A dictionary update `d[k] = v` on a string-keyed boolean dictionary. -/
def dictSet (d : String → Bool) (k : String) (v : Bool) : String → Bool :=
  fun k2 => if k2 = k then v else d k2

/-- Build a dictionary from a list of key/value pairs, in insertion order. -/
def dictOfPairs (pairs : List (String × Bool)) : String → Bool :=
  pairs.foldl (fun d p => dictSet d p.1 p.2) (fun _ => false)

/-- The full state of a `BasicVacuumWorld`: the `state` property returns a
dictionary with keys `agent_location` and `dirt_status`. -/
structure VWState where
  agent_location : String
  dirt_status : String → Bool

/-- The observation returned by `observable_state`: a dictionary with the
two keys `agent_location` and `is_dirty` and nothing else. -/
structure Observation where
  agent_location : String
  is_dirty : Bool
deriving DecidableEq

namespace BasicVacuumWorld

def locations : List String := ["A", "B"]
def actions : List String := ["LEFT", "RIGHT", "SUCK"]

/-- `BasicVacuumWorld._convert_to_dirt_status`: lower-case the token, map
members of `DIRTY_VALUES` to `True`, members of `CLEAN_VALUES` to `False`,
and raise `ValueError` on anything else. -/
def convert_to_dirt_status (string : String) : Except PyExc Bool :=
  let string := lower string
  if string ∈ DIRTY_VALUES then .ok true
  else if string ∈ CLEAN_VALUES then .ok false
  else .error (.valueError ("Invalid dirt status string: " ++ string))

/-- Force a lazily mapped conversion in order, stopping at the first
raised exception (the Python dict comprehension pulls the mapped values
one by one, so a bad token raises before later tokens are converted). -/
def convertAll (f : String → Except PyExc Bool) : List String → Except PyExc (List Bool)
  | [] => .ok []
  | x :: xs =>
    match f x with
    | .error e => .error e
    | .ok b =>
      match convertAll f xs with
      | .error e => .error e
      | .ok bs => .ok (b :: bs)

/-- `BasicVacuumWorld.__init__`: validate that `agent_location` is a
one-element list whose element is a declared location, that `dirt_status`
has one token per location, and convert each token; any violation raises
`ValueError` before a state is ever produced. -/
def init (agent_location dirt_status : List String) : Except PyExc VWState :=
  match agent_location with
  | [loc] =>
    if loc ∈ locations then
      if dirt_status.length = locations.length then
        match convertAll convert_to_dirt_status dirt_status with
        | .error e => .error e
        | .ok bs => .ok ⟨loc, dictOfPairs (locations.zip bs)⟩
      else .error (.valueError (String.intercalate "," dirt_status))
    else .error (.valueError loc)
  | _ => .error (.valueError (String.intercalate "," agent_location))

/-- The `observable_state` property: the agent location together with the
dirt status of that location only. -/
def observable_state (s : VWState) : Observation :=
  ⟨s.agent_location, s.dirt_status s.agent_location⟩

/-- `BasicVacuumWorld.update`: `SUCK` clears the dirt at the agent
location, `RIGHT` and `LEFT` move the agent, and any other action raises
`ValueError(action)` without touching the state. -/
def update (s : VWState) (action : String) : Except PyExc VWState :=
  if action = "SUCK" then
    .ok { s with dirt_status := dictSet s.dirt_status s.agent_location false }
  else if action = "RIGHT" then
    .ok { s with agent_location := "B" }
  else if action = "LEFT" then
    .ok { s with agent_location := "A" }
  else .error (.valueError action)

end BasicVacuumWorld

/-- The values list of a dirt-status dictionary, in insertion order
(one entry per declared location). -/
def dictValues (d : String → Bool) : List Bool :=
  BasicVacuumWorld.locations.map d

namespace CleanFloorEvaluator

/-- `CleanFloorEvaluator.update`: add one point for each location clear
of dirt in the given state. -/
def update (score : Nat) (state : VWState) : Nat :=
  score + (dictValues state.dirt_status).count false

end CleanFloorEvaluator

/-- The number of `False` entries in the dirt-status values of a state:
the per-call increment of the clean-floor evaluator. -/
def countFalse (st : VWState) : Nat :=
  (dictValues st.dirt_status).count false

/-- The evaluator score after `update` has been called once per listed
state, in order, starting from a freshly constructed evaluator. -/
def scoreAfter (states : List VWState) : Nat :=
  states.foldl CleanFloorEvaluator.update 0

/-- The agent capability: `decide` maps an observation to an action, or
raises. -/
structure Agent (o : Type) where
  decide : o → Except PyExc String

/-- The environment capability: an observable projection, an `update`
that may raise, and the full `state` handed to the evaluator. -/
structure Env (σ o fs : Type) where
  observable_state : σ → o
  update : σ → String → Except PyExc σ
  state : σ → fs

/-- The evaluator capability: `update` consumes a full state and the
running score. -/
structure Evaluator (ε fs : Type) where
  update : ε → fs → ε

/-- The outcome of `run_experiment`: how many decide/update/evaluate
cycles completed, the final environment and evaluator states, and the
`ExperimentError` payload if one was raised. -/
structure RunResult (σ ε : Type) where
  completed : Nat
  env : σ
  evaluator : ε
  fault : Option Fault
deriving Nonempty

/-- The component blamed when `agent.decide` raises: `ValueError` means
the observation failed the agent validation, so the environment is at
fault; anything else is an agent fault. -/
def classify_decide_exc : PyExc → String
  | .valueError _ => "environment"
  | .otherError _ => "agent"

/-- The component blamed when `environment.update` raises: `ValueError`
means the environment rejected the action, so the agent is at fault;
anything else is an environment fault. -/
def classify_update_exc : PyExc → String
  | .valueError _ => "agent"
  | .otherError _ => "environment"

/-- The loop body of `run_experiment`, with the remaining iteration count
as fuel: each iteration reads the observable state, asks the agent to
decide, applies the decision to the environment, and feeds the new full
state to the evaluator; the first raised exception is classified and
terminates the loop. -/
def run_experiment_aux {σ o fs ε : Type} (E : Env σ o fs) (A : Agent o)
    (V : Evaluator ε fs) : Nat → σ → ε → RunResult σ ε
  | 0, s, e => ⟨0, s, e, none⟩
  | n + 1, s, e =>
    match A.decide (E.observable_state s) with
    | .error exc => ⟨0, s, e, some ⟨classify_decide_exc exc, exc⟩⟩
    | .ok decision =>
      match E.update s decision with
      | .error exc => ⟨0, s, e, some ⟨classify_update_exc exc, exc⟩⟩
      | .ok s2 =>
        let e2 := V.update e (E.state s2)
        let r := run_experiment_aux E A V n s2 e2
        ⟨r.completed + 1, r.env, r.evaluator, r.fault⟩

def NUM_TRIALS : Nat := 1000

/-- `run_experiment`: simulate the agent in the environment for exactly
`NUM_TRIALS` steps, or up to the first classified fault. -/
def run_experiment {σ o fs ε : Type} (E : Env σ o fs) (A : Agent o)
    (V : Evaluator ε fs) (s : σ) (e : ε) : RunResult σ ε :=
  run_experiment_aux E A V NUM_TRIALS s e

/-- The `BasicVacuumWorld` instance of the environment capability. -/
def basicEnv : Env VWState Observation VWState :=
  ⟨BasicVacuumWorld.observable_state, BasicVacuumWorld.update, id⟩

/-- `SuckyAgent.decide`: always return the `SUCK` action. -/
def suckyAgent : Agent Observation :=
  ⟨fun _ => .ok "SUCK"⟩

/-- The `CleanFloorEvaluator` instance of the evaluator capability, with
the score as its state (initially 0). -/
def cleanFloorEvaluator : Evaluator Nat VWState :=
  ⟨CleanFloorEvaluator.update⟩

/-- The records `main` emits after the experiment: the completion
message, the experiment-error message, and the final score message. -/
inductive LogRecord where
  | completeMsg
  | errorMsg (component : String) (cause : PyExc)
  | scoreMsg (score : Nat)
deriving DecidableEq

/-- The tail of `main` after the actors are instantiated: run the
experiment, log `MSG_COMPLETE` on normal return or `MSG_EXPERIMENT_ERROR`
on an `ExperimentError`, and then log `MSG_SCORE` with the evaluator
score unconditionally. -/
def main_report {σ ε : Type} (r : RunResult σ ε) (scoreOf : ε → Nat) :
    List LogRecord :=
  (match r.fault with
   | none => [LogRecord.completeMsg]
   | some f => [LogRecord.errorMsg f.component f.cause])
  ++ [LogRecord.scoreMsg (scoreOf r.evaluator)]

/-- The state produced by constructing the environment with the default
parameters: agent at `A`, both locations dirty. -/
def s0concrete : VWState :=
  ⟨"A", dictOfPairs (BasicVacuumWorld.locations.zip [true, true])⟩

/-- Test fixture: an agent whose validity check on the observation fails,
so `decide` raises a `ValueError`. -/
def badObsAgent : Agent Observation :=
  ⟨fun _ => .error (.valueError "bad observation")⟩

/-- Test fixture: an agent whose `decide` raises an arbitrary
non-validation exception. -/
def crashingAgent : Agent Observation :=
  ⟨fun _ => .error (.otherError "boom")⟩

/-- Test fixture: an agent that always proposes the unrecognized action
`JUMP`. -/
def jumpAgent : Agent Observation :=
  ⟨fun _ => .ok "JUMP"⟩

/-- A dirt-status token is recognized when its lower-cased form belongs
to the truthy or the falsy token set. -/
def recognized (tok : String) : Prop :=
  lower tok ∈ DIRTY_VALUES ∨ lower tok ∈ CLEAN_VALUES

instance : DecidablePred recognized := fun tok =>
  inferInstanceAs (Decidable (lower tok ∈ DIRTY_VALUES ∨ lower tok ∈ CLEAN_VALUES))

/-- The loop invariant of the always-suck run started at `A`: the agent
sits at `A`, location `A` is clean and location `B` is dirty. -/
def InvA (s : VWState) : Prop :=
  s.agent_location = "A" ∧ s.dirt_status "A" = false ∧ s.dirt_status "B" = true

/-! ## Step lemmas for the experiment loop -/

theorem run_aux_succ_decide_error {σ o fs ε : Type} (E : Env σ o fs) (A : Agent o)
    (V : Evaluator ε fs) (n : Nat) (s : σ) (e : ε) (exc : PyExc)
    (hd : A.decide (E.observable_state s) = .error exc) :
    run_experiment_aux E A V (n + 1) s e
      = ⟨0, s, e, some ⟨classify_decide_exc exc, exc⟩⟩ := by
  simp only [run_experiment_aux, hd]

theorem run_aux_succ_update_error {σ o fs ε : Type} (E : Env σ o fs) (A : Agent o)
    (V : Evaluator ε fs) (n : Nat) (s : σ) (e : ε) (dec : String) (exc : PyExc)
    (hd : A.decide (E.observable_state s) = .ok dec)
    (hu : E.update s dec = .error exc) :
    run_experiment_aux E A V (n + 1) s e
      = ⟨0, s, e, some ⟨classify_update_exc exc, exc⟩⟩ := by
  simp only [run_experiment_aux, hd, hu]

theorem run_aux_succ_ok {σ o fs ε : Type} (E : Env σ o fs) (A : Agent o)
    (V : Evaluator ε fs) (n : Nat) (s : σ) (e : ε) (dec : String) (s2 : σ)
    (hd : A.decide (E.observable_state s) = .ok dec)
    (hu : E.update s dec = .ok s2) :
    run_experiment_aux E A V (n + 1) s e
      = ⟨(run_experiment_aux E A V n s2 (V.update e (E.state s2))).completed + 1,
         (run_experiment_aux E A V n s2 (V.update e (E.state s2))).env,
         (run_experiment_aux E A V n s2 (V.update e (E.state s2))).evaluator,
         (run_experiment_aux E A V n s2 (V.update e (E.state s2))).fault⟩ := by
  simp only [run_experiment_aux, hd, hu]

theorem run_aux_succ_ok_completed {σ o fs ε : Type} (E : Env σ o fs) (A : Agent o)
    (V : Evaluator ε fs) (n : Nat) (s : σ) (e : ε) (dec : String) (s2 : σ)
    (hd : A.decide (E.observable_state s) = .ok dec)
    (hu : E.update s dec = .ok s2) :
    (run_experiment_aux E A V (n + 1) s e).completed
      = (run_experiment_aux E A V n s2 (V.update e (E.state s2))).completed + 1 := by
  rw [run_aux_succ_ok E A V n s e dec s2 hd hu]

theorem run_aux_succ_ok_evaluator {σ o fs ε : Type} (E : Env σ o fs) (A : Agent o)
    (V : Evaluator ε fs) (n : Nat) (s : σ) (e : ε) (dec : String) (s2 : σ)
    (hd : A.decide (E.observable_state s) = .ok dec)
    (hu : E.update s dec = .ok s2) :
    (run_experiment_aux E A V (n + 1) s e).evaluator
      = (run_experiment_aux E A V n s2 (V.update e (E.state s2))).evaluator := by
  rw [run_aux_succ_ok E A V n s e dec s2 hd hu]

theorem run_aux_succ_ok_fault {σ o fs ε : Type} (E : Env σ o fs) (A : Agent o)
    (V : Evaluator ε fs) (n : Nat) (s : σ) (e : ε) (dec : String) (s2 : σ)
    (hd : A.decide (E.observable_state s) = .ok dec)
    (hu : E.update s dec = .ok s2) :
    (run_experiment_aux E A V (n + 1) s e).fault
      = (run_experiment_aux E A V n s2 (V.update e (E.state s2))).fault := by
  rw [run_aux_succ_ok E A V n s e dec s2 hd hu]

theorem run_aux_succ_ok_env {σ o fs ε : Type} (E : Env σ o fs) (A : Agent o)
    (V : Evaluator ε fs) (n : Nat) (s : σ) (e : ε) (dec : String) (s2 : σ)
    (hd : A.decide (E.observable_state s) = .ok dec)
    (hu : E.update s dec = .ok s2) :
    (run_experiment_aux E A V (n + 1) s e).env
      = (run_experiment_aux E A V n s2 (V.update e (E.state s2))).env := by
  rw [run_aux_succ_ok E A V n s e dec s2 hd hu]

theorem run_aux_completed_le {σ o fs ε : Type} (E : Env σ o fs) (A : Agent o)
    (V : Evaluator ε fs) :
    ∀ (n : Nat) (s : σ) (e : ε), (run_experiment_aux E A V n s e).completed ≤ n := by
  intro n
  induction n with
  | zero => intro s e; exact Nat.le_refl 0
  | succ n ih =>
    intro s e
    cases hd : A.decide (E.observable_state s) with
    | error exc =>
      rw [run_aux_succ_decide_error E A V n s e exc hd]
      exact Nat.zero_le _
    | ok dec =>
      cases hu : E.update s dec with
      | error exc =>
        rw [run_aux_succ_update_error E A V n s e dec exc hd hu]
        exact Nat.zero_le _
      | ok s2 =>
        rw [run_aux_succ_ok E A V n s e dec s2 hd hu]
        exact Nat.succ_le_succ (ih s2 _)

theorem run_aux_fault_none_completed {σ o fs ε : Type} (E : Env σ o fs) (A : Agent o)
    (V : Evaluator ε fs) :
    ∀ (n : Nat) (s : σ) (e : ε),
      (run_experiment_aux E A V n s e).fault = none →
      (run_experiment_aux E A V n s e).completed = n := by
  intro n
  induction n with
  | zero => intro s e _; rfl
  | succ n ih =>
    intro s e h
    cases hd : A.decide (E.observable_state s) with
    | error exc =>
      rw [run_aux_succ_decide_error E A V n s e exc hd] at h
      exact absurd h (by simp)
    | ok dec =>
      cases hu : E.update s dec with
      | error exc =>
        rw [run_aux_succ_update_error E A V n s e dec exc hd hu] at h
        exact absurd h (by simp)
      | ok s2 =>
        rw [run_aux_succ_ok E A V n s e dec s2 hd hu] at h ⊢
        exact congrArg Nat.succ (ih s2 _ h)

theorem run_aux_fault_some_completed_lt {σ o fs ε : Type} (E : Env σ o fs)
    (A : Agent o) (V : Evaluator ε fs) :
    ∀ (n : Nat) (s : σ) (e : ε) (f : Fault),
      (run_experiment_aux E A V n s e).fault = some f →
      (run_experiment_aux E A V n s e).completed < n := by
  intro n
  induction n with
  | zero => intro s e f h; exact absurd h (by simp [run_experiment_aux])
  | succ n ih =>
    intro s e f h
    cases hd : A.decide (E.observable_state s) with
    | error exc =>
      rw [run_aux_succ_decide_error E A V n s e exc hd]
      exact Nat.succ_pos n
    | ok dec =>
      cases hu : E.update s dec with
      | error exc =>
        rw [run_aux_succ_update_error E A V n s e dec exc hd hu]
        exact Nat.succ_pos n
      | ok s2 =>
        rw [run_aux_succ_ok E A V n s e dec s2 hd hu] at h ⊢
        exact Nat.succ_lt_succ (ih s2 _ f h)

/-! ## The always-suck run -/

theorem sucky_update_step (s : VWState) :
    BasicVacuumWorld.update s "SUCK"
      = .ok { s with dirt_status := dictSet s.dirt_status s.agent_location false } :=
  rfl

theorem InvA_preserved (s : VWState) (h : InvA s) :
    InvA { s with dirt_status := dictSet s.dirt_status s.agent_location false } := by
  obtain ⟨h1, _, h3⟩ := h
  refine ⟨h1, ?_, ?_⟩
  · simp [dictSet, h1]
  · simp [dictSet, h1, h3]

theorem countFalse_InvA (s : VWState) (h : InvA s) : countFalse s = 1 := by
  obtain ⟨_, h2, h3⟩ := h
  simp [countFalse, dictValues, BasicVacuumWorld.locations, h2, h3]

theorem sucky_run_inv :
    ∀ (n : Nat) (s : VWState) (e : Nat), InvA s →
      (run_experiment_aux basicEnv suckyAgent cleanFloorEvaluator n s e).completed = n
      ∧ (run_experiment_aux basicEnv suckyAgent cleanFloorEvaluator n s e).evaluator = e + n
      ∧ (run_experiment_aux basicEnv suckyAgent cleanFloorEvaluator n s e).fault = none
      ∧ InvA (run_experiment_aux basicEnv suckyAgent cleanFloorEvaluator n s e).env := by
  intro n
  induction n with
  | zero => intro s e h; exact ⟨rfl, rfl, rfl, h⟩
  | succ n ih =>
    intro s e h
    have hd : suckyAgent.decide (basicEnv.observable_state s) = .ok "SUCK" := rfl
    have hu : basicEnv.update s "SUCK"
        = .ok { s with dirt_status := dictSet s.dirt_status s.agent_location false } :=
      sucky_update_step s
    rw [run_aux_succ_ok basicEnv suckyAgent cleanFloorEvaluator n s e "SUCK" _ hd hu]
    have hinv2 := InvA_preserved s h
    have hev : cleanFloorEvaluator.update e
        (basicEnv.state { s with dirt_status := dictSet s.dirt_status s.agent_location false })
        = e + 1 := by
      have := countFalse_InvA _ hinv2
      simpa [cleanFloorEvaluator, CleanFloorEvaluator.update, basicEnv, countFalse] using
        congrArg (e + ·) this
    rw [hev] at *
    obtain ⟨ih1, ih2, ih3, ih4⟩ := ih _ (e + 1) hinv2
    refine ⟨congrArg Nat.succ ih1, ?_, ih3, ih4⟩
    rw [ih2]
    omega

theorem sucky_full_run (s : VWState) (h0 : s.agent_location = "A")
    (hB : s.dirt_status "B" = true) :
    (run_experiment basicEnv suckyAgent cleanFloorEvaluator s 0).completed = 1000
    ∧ (run_experiment basicEnv suckyAgent cleanFloorEvaluator s 0).evaluator = 1000
    ∧ (run_experiment basicEnv suckyAgent cleanFloorEvaluator s 0).fault = none
    ∧ InvA (run_experiment basicEnv suckyAgent cleanFloorEvaluator s 0).env := by
  have hd : suckyAgent.decide (basicEnv.observable_state s) = .ok "SUCK" := rfl
  have hu : basicEnv.update s "SUCK"
      = .ok { s with dirt_status := dictSet s.dirt_status s.agent_location false } :=
    sucky_update_step s
  have hinv2 : InvA { s with dirt_status := dictSet s.dirt_status s.agent_location false } := by
    refine ⟨h0, ?_, ?_⟩
    · simp [dictSet, h0]
    · simp [dictSet, h0, hB]
  show (run_experiment_aux basicEnv suckyAgent cleanFloorEvaluator (999 + 1) s 0).completed = 1000
    ∧ (run_experiment_aux basicEnv suckyAgent cleanFloorEvaluator (999 + 1) s 0).evaluator = 1000
    ∧ (run_experiment_aux basicEnv suckyAgent cleanFloorEvaluator (999 + 1) s 0).fault = none
    ∧ InvA (run_experiment_aux basicEnv suckyAgent cleanFloorEvaluator (999 + 1) s 0).env
  rw [run_aux_succ_ok_completed basicEnv suckyAgent cleanFloorEvaluator 999 s 0 "SUCK" _ hd hu,
    run_aux_succ_ok_evaluator basicEnv suckyAgent cleanFloorEvaluator 999 s 0 "SUCK" _ hd hu,
    run_aux_succ_ok_fault basicEnv suckyAgent cleanFloorEvaluator 999 s 0 "SUCK" _ hd hu,
    run_aux_succ_ok_env basicEnv suckyAgent cleanFloorEvaluator 999 s 0 "SUCK" _ hd hu]
  have hev : cleanFloorEvaluator.update 0
      (basicEnv.state { s with dirt_status := dictSet s.dirt_status s.agent_location false })
      = 1 := by
    have := countFalse_InvA _ hinv2
    simpa [cleanFloorEvaluator, CleanFloorEvaluator.update, basicEnv, countFalse] using this
  rw [hev]
  obtain ⟨ih1, ih2, ih3, ih4⟩ := sucky_run_inv 999 _ 1 hinv2
  exact ⟨by rw [ih1], by rw [ih2], ih3, ih4⟩

/-- Any string outside the action vocabulary makes `update` raise
`ValueError(action)`. -/
theorem update_not_action (s : VWState) (a : String)
    (ha : a ∉ BasicVacuumWorld.actions) :
    BasicVacuumWorld.update s a = .error (.valueError a) := by
  simp only [BasicVacuumWorld.actions, List.mem_cons, List.not_mem_nil, or_false,
    not_or] at ha
  simp [BasicVacuumWorld.update, ha.1, ha.2.1, ha.2.2]

/-- A recognized dirt-status token converts without raising. -/
theorem recognized_convert_ok (t : String) (h : recognized t) :
    ∃ b, BasicVacuumWorld.convert_to_dirt_status t = .ok b := by
  by_cases hd : lower t ∈ DIRTY_VALUES
  · exact ⟨true, by simp [BasicVacuumWorld.convert_to_dirt_status, hd]⟩
  · rcases h with h | h
    · exact absurd h hd
    · exact ⟨false, by simp [BasicVacuumWorld.convert_to_dirt_status, hd, h]⟩

/-! ## Claims -/

/-- Claim C1: when `agent.decide` raises during a step of
`run_experiment`, a raised `ValueError` terminates the run with the fault
attributed to the environment, and any other exception terminates it with
the fault attributed to the agent; in both cases no further steps run
(the loop completes zero additional cycles and the environment and
evaluator are not touched again). -/
theorem decide_exception_fault_attribution {σ o fs ε : Type}
    (E : Env σ o fs) (A : Agent o) (V : Evaluator ε fs)
    (s : σ) (e : ε) (exc : PyExc) (n : Nat)
    (h : A.decide (E.observable_state s) = .error exc) :
    (run_experiment_aux E A V (n + 1) s e).completed = 0
    ∧ (run_experiment_aux E A V (n + 1) s e).env = s
    ∧ (run_experiment_aux E A V (n + 1) s e).evaluator = e
    ∧ (∀ m, exc = PyExc.valueError m →
        (run_experiment_aux E A V (n + 1) s e).fault = some ⟨"environment", exc⟩)
    ∧ (∀ m, exc = PyExc.otherError m →
        (run_experiment_aux E A V (n + 1) s e).fault = some ⟨"agent", exc⟩) := by
  rw [run_aux_succ_decide_error E A V n s e exc h]
  refine ⟨rfl, rfl, rfl, ?_, ?_⟩
  · rintro m rfl
    rfl
  · rintro m rfl
    rfl

/-- Witness for C1 at concrete inputs: an agent whose validity check on
the observation raises `ValueError` yields an environment fault, and an
agent raising any other exception yields an agent fault. -/
theorem decide_exception_fault_attribution_witness :
    (run_experiment_aux basicEnv badObsAgent cleanFloorEvaluator (999 + 1) s0concrete 0).fault
      = some ⟨"environment", PyExc.valueError "bad observation"⟩
    ∧ (run_experiment_aux basicEnv crashingAgent cleanFloorEvaluator (999 + 1) s0concrete 0).fault
      = some ⟨"agent", PyExc.otherError "boom"⟩ :=
  ⟨(decide_exception_fault_attribution basicEnv badObsAgent cleanFloorEvaluator s0concrete 0
      (PyExc.valueError "bad observation") 999 rfl).2.2.2.1 "bad observation" rfl,
   (decide_exception_fault_attribution basicEnv crashingAgent cleanFloorEvaluator s0concrete 0
      (PyExc.otherError "boom") 999 rfl).2.2.2.2 "boom" rfl⟩

/-- Claim C2: any string outside `{LEFT, RIGHT, SUCK}` makes
`BasicVacuumWorld.update` raise `InvalidAction` (a `ValueError`); the
Runner classifies it as an agent fault and stops with fewer than 1000
completed steps; and a non-`ValueError` exception raised by any `update`
is classified as an environment fault instead. -/
theorem invalid_action_enforcement {ε : Type}
    (V : Evaluator ε VWState) (A : Agent Observation)
    (s : VWState) (e : ε) (a : String)
    (ha : a ∉ BasicVacuumWorld.actions)
    (hdec : ∀ ob, A.decide ob = .ok a) :
    BasicVacuumWorld.update s a = .error (.valueError a)
    ∧ (run_experiment basicEnv A V s e).fault = some ⟨"agent", PyExc.valueError a⟩
    ∧ (run_experiment basicEnv A V s e).completed < 1000
    ∧ (∀ {σ2 o2 fs2 : Type} (E2 : Env σ2 o2 fs2) (A2 : Agent o2)
        (V2 : Evaluator ε fs2) (s2 : σ2) (e2 : ε) (f : Fault),
        (run_experiment E2 A2 V2 s2 e2).fault = some f →
        (run_experiment E2 A2 V2 s2 e2).completed < 1000)
    ∧ (∀ {σ2 o2 fs2 : Type} (E2 : Env σ2 o2 fs2) (A2 : Agent o2)
        (V2 : Evaluator ε fs2) (s2 : σ2) (e2 : ε) (dec m : String) (n : Nat),
        A2.decide (E2.observable_state s2) = .ok dec →
        E2.update s2 dec = .error (.otherError m) →
        (run_experiment_aux E2 A2 V2 (n + 1) s2 e2).fault
          = some ⟨"environment", PyExc.otherError m⟩) := by
  have hupd : BasicVacuumWorld.update s a = .error (.valueError a) :=
    update_not_action s a ha
  have hfault : (run_experiment basicEnv A V s e).fault
      = some ⟨"agent", PyExc.valueError a⟩ := by
    show (run_experiment_aux basicEnv A V (999 + 1) s e).fault = _
    rw [run_aux_succ_update_error basicEnv A V 999 s e a (.valueError a) (hdec _) hupd]
    rfl
  refine ⟨hupd, hfault, ?_, ?_, ?_⟩
  · exact run_aux_fault_some_completed_lt basicEnv A V 1000 s e _ hfault
  · intro σ2 o2 fs2 E2 A2 V2 s2 e2 f hf
    exact run_aux_fault_some_completed_lt E2 A2 V2 1000 s2 e2 f hf
  · intro σ2 o2 fs2 E2 A2 V2 s2 e2 dec m n hd2 hu2
    rw [run_aux_succ_update_error E2 A2 V2 n s2 e2 dec (.otherError m) hd2 hu2]
    rfl

/-- Witness for C2 at concrete inputs: an agent that always proposes
`JUMP` makes the reference environment raise, the run faults on the agent
side, and fewer than 1000 steps complete. -/
theorem invalid_action_enforcement_witness :
    BasicVacuumWorld.update s0concrete "JUMP" = .error (.valueError "JUMP")
    ∧ (run_experiment basicEnv jumpAgent cleanFloorEvaluator s0concrete 0).fault
      = some ⟨"agent", PyExc.valueError "JUMP"⟩
    ∧ (run_experiment basicEnv jumpAgent cleanFloorEvaluator s0concrete 0).completed < 1000 :=
  have h := invalid_action_enforcement cleanFloorEvaluator jumpAgent s0concrete 0 "JUMP"
    (by decide) (fun _ => rfl)
  ⟨h.1, h.2.1, h.2.2.1⟩

/-- Claim C3: whenever no call raises (equivalently, the run ends without
a fault), `run_experiment` performs exactly 1000 decide/update/evaluate
cycles; the completed count can never exceed the fixed horizon, so there
is no early-success termination and no extra cycle. -/
theorem fixed_horizon_1000 {σ o fs ε : Type} (E : Env σ o fs) (A : Agent o)
    (V : Evaluator ε fs) (s : σ) (e : ε)
    (h : (run_experiment E A V s e).fault = none) :
    (run_experiment E A V s e).completed = 1000
    ∧ ∀ (n : Nat), (run_experiment_aux E A V n s e).completed ≤ n :=
  ⟨run_aux_fault_none_completed E A V 1000 s e h,
   fun n => run_aux_completed_le E A V n s e⟩

/-- Witness for C3: the always-suck run from the default initial state
never faults and completes exactly 1000 cycles. -/
theorem fixed_horizon_1000_witness :
    (run_experiment basicEnv suckyAgent cleanFloorEvaluator s0concrete 0).completed = 1000 :=
  (fixed_horizon_1000 basicEnv suckyAgent cleanFloorEvaluator s0concrete 0
    (sucky_full_run s0concrete rfl rfl).2.2.1).1

/-- Counterexample to C4: at a concrete faulting run (an agent whose
`decide` raises a non-validation exception at step 1), `main` still emits
a final score record, so the claim that a mid-run fault ends the run
without computing or emitting a score is false on the code. -/
theorem score_emitted_after_fault_cex :
    (run_experiment basicEnv crashingAgent cleanFloorEvaluator s0concrete 0).fault
      = some ⟨"agent", PyExc.otherError "boom"⟩
    ∧ LogRecord.scoreMsg 0
      ∈ main_report (run_experiment basicEnv crashingAgent cleanFloorEvaluator s0concrete 0) id := by
  constructor
  · rfl
  · show LogRecord.scoreMsg 0 ∈ main_report
      (run_experiment_aux basicEnv crashingAgent cleanFloorEvaluator (999 + 1) s0concrete 0) id
    rw [run_aux_succ_decide_error basicEnv crashingAgent cleanFloorEvaluator 999 s0concrete 0
      (PyExc.otherError "boom") rfl]
    simp [main_report]

/-- Claim C4 as amended: on a mid-run fault, `main` reports the failing
component and the underlying cause and does not emit the completion
message, but it still computes and emits the final score record (holding
whatever the evaluator accumulated up to the last completed step); on a
run with no fault it emits the completion message followed by the score
record. -/
theorem fault_report_then_score {σ ε : Type} (r : RunResult σ ε)
    (scoreOf : ε → Nat) (f : Fault) (h : r.fault = some f) :
    main_report r scoreOf
      = [LogRecord.errorMsg f.component f.cause,
         LogRecord.scoreMsg (scoreOf r.evaluator)]
    ∧ LogRecord.completeMsg ∉ main_report r scoreOf
    ∧ ∀ (r2 : RunResult σ ε), r2.fault = none →
        main_report r2 scoreOf
          = [LogRecord.completeMsg, LogRecord.scoreMsg (scoreOf r2.evaluator)] := by
  refine ⟨by simp [main_report, h], by simp [main_report, h], ?_⟩
  intro r2 h2
  simp [main_report, h2]

/-- Witness for the amended C4 at a concrete faulting run. -/
theorem fault_report_then_score_witness :
    main_report (run_experiment basicEnv crashingAgent cleanFloorEvaluator s0concrete 0) id
      = [LogRecord.errorMsg "agent" (PyExc.otherError "boom"), LogRecord.scoreMsg 0] :=
  (fault_report_then_score
    (run_experiment basicEnv crashingAgent cleanFloorEvaluator s0concrete 0) id
    ⟨"agent", PyExc.otherError "boom"⟩ rfl).1

/-- Claim C5: after any sequence of states is fed to
`CleanFloorEvaluator.update` in order, the score equals the sum over
those calls of the number of `False` values in the dirt status of the
state passed to each call, and the score never decreases when further
calls are appended. -/
theorem evaluator_score_sum_monotone (states : List VWState) :
    scoreAfter states = (states.map countFalse).sum
    ∧ ∀ (more : List VWState), scoreAfter states ≤ scoreAfter (states ++ more) := by
  have hgen : ∀ (l : List VWState) (c : Nat),
      l.foldl CleanFloorEvaluator.update c = c + (l.map countFalse).sum := by
    intro l
    induction l with
    | nil => intro c; simp
    | cons st rest ih =>
      intro c
      rw [List.foldl_cons, ih]
      simp only [List.map_cons, List.sum_cons, CleanFloorEvaluator.update, countFalse]
      omega
  constructor
  · simpa [scoreAfter] using hgen states 0
  · intro more
    rw [scoreAfter, scoreAfter, hgen, hgen, List.map_append, List.sum_append]
    omega

/-- Claim C6: starting from the state the default construction produces
(agent at `A`, both locations dirty), the 1000-step always-suck run
completes without fault and its final score is exactly 1000; the final
state still has the agent at `A`, location `A` clean and location `B`
dirty. Determinism is inherent: the run is a function of its inputs, so
two runs of this expression are the same value. -/
theorem sucky_run_score_1000 (s0 : VWState)
    (hinit : BasicVacuumWorld.init ["A"] ["t", "t"] = .ok s0) :
    (run_experiment basicEnv suckyAgent cleanFloorEvaluator s0 0).evaluator = 1000
    ∧ (run_experiment basicEnv suckyAgent cleanFloorEvaluator s0 0).fault = none
    ∧ (run_experiment basicEnv suckyAgent cleanFloorEvaluator s0 0).completed = 1000
    ∧ (run_experiment basicEnv suckyAgent cleanFloorEvaluator s0 0).env.agent_location = "A"
    ∧ (run_experiment basicEnv suckyAgent cleanFloorEvaluator s0 0).env.dirt_status "A" = false
    ∧ (run_experiment basicEnv suckyAgent cleanFloorEvaluator s0 0).env.dirt_status "B" = true := by
  have hconc : BasicVacuumWorld.init ["A"] ["t", "t"] = .ok s0concrete := rfl
  rw [hconc] at hinit
  injection hinit with hs0
  subst hs0
  obtain ⟨h1, h2, h3, h4, h5, h6⟩ := sucky_full_run s0concrete rfl rfl
  exact ⟨h2, h3, h1, h4, h5, h6⟩

/-- Witness for C6: the construction hypothesis holds at the concrete
default state and the run then scores 1000 without fault. -/
theorem sucky_run_score_1000_witness :
    (run_experiment basicEnv suckyAgent cleanFloorEvaluator s0concrete 0).evaluator = 1000
    ∧ (run_experiment basicEnv suckyAgent cleanFloorEvaluator s0concrete 0).fault = none :=
  have h := sucky_run_score_1000 s0concrete rfl
  ⟨h.1, h.2.1⟩

/-- Claim C7: the observation reveals only the agent location and the
dirt status of that location: changing the dirt status of any location
the agent is not at leaves `observable_state` unchanged, and any two
states agreeing on the agent location and on the dirt there produce
identical observations. -/
theorem observation_no_leak (s : VWState) (loc : String) (b : Bool)
    (h : loc ≠ s.agent_location) :
    BasicVacuumWorld.observable_state
        { s with dirt_status := dictSet s.dirt_status loc b }
      = BasicVacuumWorld.observable_state s
    ∧ ∀ (s1 s2 : VWState), s1.agent_location = s2.agent_location →
        s1.dirt_status s1.agent_location = s2.dirt_status s2.agent_location →
        BasicVacuumWorld.observable_state s1 = BasicVacuumWorld.observable_state s2 := by
  constructor
  · have h2 : s.agent_location ≠ loc := Ne.symm h
    simp [BasicVacuumWorld.observable_state, dictSet, h2]
  · intro s1 s2 h1 h2
    simp only [BasicVacuumWorld.observable_state, Observation.mk.injEq]
    exact ⟨h1, by rw [h2]⟩

/-- Witness for C7: dirtying or cleaning location `B` is invisible to the
observation when the agent stands at `A`. -/
theorem observation_no_leak_witness :
    BasicVacuumWorld.observable_state
        { s0concrete with dirt_status := dictSet s0concrete.dirt_status "B" false }
      = BasicVacuumWorld.observable_state s0concrete :=
  (observation_no_leak s0concrete "B" false (by decide)).1

/-- Claim C8: with the agent at `A`, `update('SUCK')` only writes
`dirt_status['A']` (to clean): the resulting state keeps the dirt status
of `B` and the agent location exactly as they were. -/
theorem suck_at_A_frame (s : VWState) (h : s.agent_location = "A") :
    BasicVacuumWorld.update s "SUCK"
      = .ok { s with dirt_status := dictSet s.dirt_status "A" false }
    ∧ ∀ (s2 : VWState), BasicVacuumWorld.update s "SUCK" = .ok s2 →
        s2.dirt_status "A" = false
        ∧ s2.dirt_status "B" = s.dirt_status "B"
        ∧ s2.agent_location = s.agent_location := by
  have h1 : BasicVacuumWorld.update s "SUCK"
      = .ok { s with dirt_status := dictSet s.dirt_status "A" false } := by
    rw [sucky_update_step s, h]
  refine ⟨h1, ?_⟩
  intro s2 h2
  rw [h1] at h2
  injection h2 with h3
  subst h3
  refine ⟨?_, ?_, rfl⟩
  · simp [dictSet]
  · simp [dictSet]

/-- Witness for C8 at the concrete default state. -/
theorem suck_at_A_frame_witness :
    BasicVacuumWorld.update s0concrete "SUCK"
      = .ok { s0concrete with dirt_status := dictSet s0concrete.dirt_status "A" false } :=
  (suck_at_A_frame s0concrete rfl).1

/-- Claim C9: the constructor rejects, with a `ValueError` raised before
any state is produced, an agent location outside the declared locations
(whatever the dirt tokens are) and any dirt-status token whose
lower-cased form is outside the recognized truthy and falsy sets, whether
it occurs in the first or the second position. -/
theorem bad_construction_rejected :
    (∀ (loc : String) (ds : List String), loc ∉ BasicVacuumWorld.locations →
        BasicVacuumWorld.init [loc] ds = .error (.valueError loc))
    ∧ (∀ (tok other : String), ¬ recognized tok →
        BasicVacuumWorld.init ["A"] [tok, other]
          = .error (.valueError ("Invalid dirt status string: " ++ lower tok)))
    ∧ (∀ (tok1 tok : String), recognized tok1 → ¬ recognized tok →
        BasicVacuumWorld.init ["A"] [tok1, tok]
          = .error (.valueError ("Invalid dirt status string: " ++ lower tok))) := by
  refine ⟨?_, ?_, ?_⟩
  · intro loc ds h
    simp [BasicVacuumWorld.init, h]
  · intro tok other h
    have h12 : lower tok ∉ DIRTY_VALUES ∧ lower tok ∉ CLEAN_VALUES := by
      simpa [recognized, not_or] using h
    have herr : BasicVacuumWorld.convert_to_dirt_status tok
        = .error (.valueError ("Invalid dirt status string: " ++ lower tok)) := by
      simp [BasicVacuumWorld.convert_to_dirt_status, h12.1, h12.2]
    simp [BasicVacuumWorld.init, BasicVacuumWorld.locations, BasicVacuumWorld.convertAll, herr]
  · intro tok1 tok h1 h
    have h12 : lower tok ∉ DIRTY_VALUES ∧ lower tok ∉ CLEAN_VALUES := by
      simpa [recognized, not_or] using h
    have herr : BasicVacuumWorld.convert_to_dirt_status tok
        = .error (.valueError ("Invalid dirt status string: " ++ lower tok)) := by
      simp [BasicVacuumWorld.convert_to_dirt_status, h12.1, h12.2]
    obtain ⟨b, hb⟩ := recognized_convert_ok tok1 h1
    simp [BasicVacuumWorld.init, BasicVacuumWorld.locations, BasicVacuumWorld.convertAll,
      hb, herr]

/-- Witness for C9: a location outside the world and an unrecognized
dirt token (in either position, tested case-insensitively) are rejected
at construction. -/
theorem bad_construction_rejected_witness :
    BasicVacuumWorld.init ["C"] ["t", "t"] = .error (.valueError "C")
    ∧ BasicVacuumWorld.init ["A"] ["MAYBE", "t"]
      = .error (.valueError "Invalid dirt status string: maybe")
    ∧ BasicVacuumWorld.init ["A"] ["t", "MAYBE"]
      = .error (.valueError "Invalid dirt status string: maybe") :=
  ⟨bad_construction_rejected.1 "C" ["t", "t"] (by decide),
   bad_construction_rejected.2.1 "MAYBE" "t" (by decide),
   bad_construction_rejected.2.2 "t" "MAYBE" (by decide) (by decide)⟩

/-- Claim C10: an action outside the vocabulary is rejected before any
mutation: `update` returns only the raised `ValueError` and no successor
state, and the runner keeps the environment (and the evaluator) exactly
as they were at the failing step. -/
theorem invalid_action_leaves_state_unchanged {ε : Type} (s : VWState) (a : String)
    (V : Evaluator ε VWState) (A : Agent Observation) (e : ε) (n : Nat)
    (ha : a ∉ BasicVacuumWorld.actions)
    (hdec : A.decide (BasicVacuumWorld.observable_state s) = .ok a) :
    BasicVacuumWorld.update s a = .error (.valueError a)
    ∧ (run_experiment_aux basicEnv A V (n + 1) s e).env = s
    ∧ (run_experiment_aux basicEnv A V (n + 1) s e).evaluator = e
    ∧ (run_experiment_aux basicEnv A V (n + 1) s e).fault
      = some ⟨"agent", PyExc.valueError a⟩ := by
  have hupd : BasicVacuumWorld.update s a = .error (.valueError a) :=
    update_not_action s a ha
  have hd2 : A.decide (basicEnv.observable_state s) = .ok a := hdec
  rw [run_aux_succ_update_error basicEnv A V n s e a (.valueError a) hd2 hupd]
  exact ⟨hupd, rfl, rfl, rfl⟩

/-- Witness for C10: the `JUMP` action at the concrete default state is
rejected and the environment state survives untouched. -/
theorem invalid_action_leaves_state_unchanged_witness :
    BasicVacuumWorld.update s0concrete "JUMP" = .error (.valueError "JUMP")
    ∧ (run_experiment_aux basicEnv jumpAgent cleanFloorEvaluator (999 + 1) s0concrete 0).env
      = s0concrete :=
  have h := invalid_action_leaves_state_unchanged s0concrete "JUMP" cleanFloorEvaluator
    jumpAgent 0 999 (by decide) rfl
  ⟨h.1, h.2.1⟩

end VacuumWorld
